import Mathlib

/-!
Shallow embedding of the `porkbun-domain-mcp` repository
(`src/porkbun_domain_mcp/client.py`, `models.py`, `tools/domain_tools.py`)
used to check the specification's claims.

Modelling conventions:
* A parsed JSON response body is an `ApiBody`, holding exactly the fields
  the client reads: `status`, `message`, `domains`, `pricing`, `auth_code`.
  An absent key is `none` (resp. `[]`), matching Python's `dict.get`
  behaviour and pydantic's defaults.
* The remote side of one HTTP call is an `Attempt`: either a transport
  failure (`httpx.RequestError`) or an HTTP response carrying its status
  code, its raw text and its parsed body.  A whole interaction is scripted
  by a function `script : Nat → Attempt` giving the outcome of each
  attempt, indexed from 0 as in the Python `for attempt in range(...)`.
* Sleeping is recorded rather than performed: each client call returns a
  `Trace` whose `delays` field lists the back-off sleeps in milliseconds
  (Python sleeps `0.5 * 2^attempt` seconds, i.e. `500 * 2^attempt` ms)
  and whose `calls` field counts the remote calls actually made.
* Python exceptions become `Except ClientError`.  `ClientError.porkbun`
  is the typed `PorkbunError` from `models.py`; the other constructors
  are raw `httpx` exceptions, which can escape the client only on the
  pricing path (`get_pricing` performs no exception handling).
-/

set_option autoImplicit false

deriving instance DecidableEq for Except

namespace PorkbunMCP

/-- Embeds `models.Domain`: one domain record from the listing endpoint. -/
structure Domain where
  domain : String
  status : String
  tld : String
  create_date : Option String := none
  expire_date : Option String := none
  whois_privacy : Option String := none
  auto_renew : Option Bool := none
  not_local : Option Bool := none
deriving DecidableEq

/-- Embeds `models.PricingInfo`: pricing data for one TLD. -/
structure PricingInfo where
  tld : String
  registration : Option String := none
  renewal : Option String := none
  transfer : Option String := none
deriving DecidableEq

/-- A parsed JSON response body, restricted to the keys the client reads.
`none` / `[]` stands for an absent key. -/
structure ApiBody where
  status? : Option String := none
  message? : Option String := none
  domains : List Domain := []
  pricing : List (String × PricingInfo) := []
  auth_code? : Option String := none
deriving DecidableEq

/-- Embeds `models.PorkbunError`: message, optional HTTP status, and the
response body as `details` (Python defaults `details` to `{}`; we keep
`none` for the absent case). -/
structure PorkbunError where
  message : String
  status : Option Nat := none
  details : Option ApiBody := none
deriving DecidableEq

/-- An exception escaping a client method: the typed `PorkbunError`, or a
raw `httpx` exception (`HTTPStatusError` / `RequestError`), which the
client lets escape only on the `get_pricing` path. -/
inductive ClientError where
  | porkbun (e : PorkbunError)
  | httpStatus (code : Nat) (text : String)
  | transport (msg : String)
deriving DecidableEq

/-- The remote outcome of a single HTTP call: a transport-level failure
(`httpx.RequestError`) or an HTTP response with status code, raw text and
parsed JSON body. -/
inductive Attempt where
  | transportError (msg : String)
  | httpResponse (code : Nat) (text : String) (body : ApiBody)
deriving DecidableEq

/-- `httpx.Response.raise_for_status` raises unless the status code is a
success code (2xx). -/
def is2xx (code : Nat) : Bool :=
  decide (200 ≤ code ∧ code < 300)

/-- Python `str.upper`, modelled characterwise over the string's data
(extensionally the same as `String.toUpper`, written this way so that
the kernel can evaluate it on concrete strings). -/
def strUpper (s : String) : String := ⟨s.data.map Char.toUpper⟩

/-- The envelope check of `client.py` line 100:
`data.get("status", "").upper() == "SUCCESS"`. -/
def envelopeSuccess (body : ApiBody) : Bool :=
  strUpper (body.status?.getD "") == "SUCCESS"

/-- An attempt on which `_request` enters one of its two `except` arms:
a transport error, or an HTTP response failing `raise_for_status`. -/
def Attempt.failed : Attempt → Bool
  | .transportError _ => true
  | .httpResponse code _ _ => !is2xx code

/-- The observable outcome of the `_request` retry loop: final result,
number of remote calls made, and back-off sleeps (milliseconds). -/
structure RawTrace where
  result : Except ClientError ApiBody
  calls : Nat
  delays : List Nat
deriving DecidableEq

/-- The retry loop of `_request` (client.py lines 86-148), one recursive
step per loop iteration.  `attempt` is the Python loop variable; `fuel`
is the number of iterations `range(max_retries + 1)` still has to run,
so the `fuel = 0` base case is the `raise` after the loop (line 146),
reachable only if every iteration falls through — which, as in Python,
never happens from the entry point below. -/
def requestAux (maxRetries : Nat) (script : Nat → Attempt) : Nat → Nat → RawTrace
  | _, 0 =>
    ⟨.error (.porkbun ⟨s!"Request failed after {maxRetries} retries", none, none⟩), 0, []⟩
  | attempt, fuel + 1 =>
    match script attempt with
    | .transportError msg =>
      if attempt < maxRetries then
        let rest := requestAux maxRetries script (attempt + 1) fuel
        ⟨rest.result, rest.calls + 1, 500 * 2 ^ attempt :: rest.delays⟩
      else
        ⟨.error (.porkbun ⟨s!"Request failed: {msg}", none, none⟩), 1, []⟩
    | .httpResponse code text body =>
      if is2xx code then
        if envelopeSuccess body then
          ⟨.ok body, 1, []⟩
        else
          ⟨.error (.porkbun ⟨body.message?.getD "Unknown API error", some code, some body⟩),
            1, []⟩
      else
        if attempt < maxRetries then
          let rest := requestAux maxRetries script (attempt + 1) fuel
          ⟨rest.result, rest.calls + 1, 500 * 2 ^ attempt :: rest.delays⟩
        else
          ⟨.error (.porkbun ⟨s!"HTTP {code}: {text}", some code, none⟩), 1, []⟩

/-- The observable behaviour of one client method call: HTTP method and
endpoint of the underlying request, final result, remote-call count and
back-off sleeps (milliseconds). -/
structure Trace (α : Type) where
  method : String
  endpoint : String
  result : Except ClientError α
  calls : Nat
  delays : List Nat
deriving DecidableEq

/-- Embeds `PorkbunDomainClient._request`: runs the retry loop from
attempt 0 with `max_retries + 1` iterations available. -/
def _request (method endpoint : String) (maxRetries : Nat) (script : Nat → Attempt) :
    Trace ApiBody :=
  let r := requestAux maxRetries script 0 (maxRetries + 1)
  ⟨method, endpoint, r.result, r.calls, r.delays⟩

/-- Post-processing of a successful request body, as each client method
does after `await self._request(...)` returns. -/
def Trace.mapResult {α β : Type} (f : α → β) (t : Trace α) : Trace β :=
  ⟨t.method, t.endpoint, t.result.map f, t.calls, t.delays⟩

/-- Embeds `PorkbunDomainClient.list_domains`: POST `/domain/list/all`,
then `DomainsResponse(**data).domains` (absent key parses to `[]`). -/
def list_domains (maxRetries : Nat) (script : Nat → Attempt) : Trace (List Domain) :=
  (_request "POST" "/domain/list/all" maxRetries script).mapResult (fun b => b.domains)

/-- Embeds `PorkbunDomainClient.get_domain_info`: lists all domains and
linearly scans for the first record whose `domain` field equals the
requested name; raises a 404 `PorkbunError` when none matches. -/
def get_domain_info (maxRetries : Nat) (script : Nat → Attempt) (domain : String) :
    Trace Domain :=
  let t := list_domains maxRetries script
  { method := t.method, endpoint := t.endpoint, calls := t.calls, delays := t.delays
    result :=
      match t.result with
      | .error e => .error e
      | .ok ds =>
        match ds.find? (fun d => d.domain == domain) with
        | some d => .ok d
        | none =>
          .error (.porkbun ⟨s!"Domain {domain} not found in account", some 404, none⟩) }

/-- Embeds `PorkbunDomainClient.get_auth_code`: POST to the per-domain
endpoint, then `response.auth_code or ""` (absent — and empty — field
give the empty string). -/
def get_auth_code (maxRetries : Nat) (script : Nat → Attempt) (domain : String) :
    Trace String :=
  (_request "POST" ("/domain/getAuthCode/" ++ domain) maxRetries script).mapResult
    (fun b => b.auth_code?.getD "")

/-- Embeds the dict `renew_domain` returns (client.py lines 227-232). -/
structure RenewResult where
  domain : String
  years : Int
  success : Bool
  message : String
deriving DecidableEq

/-- Embeds `PorkbunDomainClient.renew_domain`: POST to the per-domain
renew endpoint with a `{"years": years}` payload, then build the result
dict with `success=True` and `data.get("message", "Domain renewed successfully")`. -/
def renew_domain (maxRetries : Nat) (script : Nat → Attempt) (domain : String)
    (years : Int) : Trace RenewResult :=
  (_request "POST" ("/domain/renew/" ++ domain) maxRetries script).mapResult
    (fun b => ⟨domain, years, true, b.message?.getD "Domain renewed successfully"⟩)

/-- Embeds `PorkbunDomainClient.get_pricing` (client.py lines 234-270):
a single direct `client.post("/pricing/get", ...)` — not `_request`, so
no retry and no exception handling: `raise_for_status` failures and
transport errors escape as raw `httpx` exceptions.  On a non-success
envelope it raises a `PorkbunError` with no status and no details.  The
`tld` filter is applied by Python truthiness (`if tld:`), so `none` and
the empty string both return the full map. -/
def get_pricing (a : Attempt) (tld? : Option String) :
    Trace (List (String × PricingInfo)) :=
  match a with
  | .transportError msg =>
    ⟨"POST", "/pricing/get", .error (.transport msg), 1, []⟩
  | .httpResponse code text body =>
    if is2xx code then
      if envelopeSuccess body then
        let res : List (String × PricingInfo) :=
          match tld? with
          | some t =>
            if t = "" then body.pricing
            else
              match body.pricing.lookup t with
              | some v => [(t, v)]
              | none => []
          | none => body.pricing
        ⟨"POST", "/pricing/get", .ok res, 1, []⟩
      else
        ⟨"POST", "/pricing/get",
          .error (.porkbun ⟨body.message?.getD "Failed to get pricing", none, none⟩), 1, []⟩
    else
      ⟨"POST", "/pricing/get", .error (.httpStatus code text), 1, []⟩

/-- The client's connection state: `self._client`, an optional handle.
Handles are abstracted to `Nat` identifiers. -/
structure ClientState where
  handle : Option Nat
deriving DecidableEq

/-- Embeds `PorkbunDomainClient._ensure_client`: create a fresh handle
when none is held, otherwise reuse the held one.  Returns the new state
and the handle used. -/
def _ensure_client (s : ClientState) (fresh : Nat) : ClientState × Nat :=
  match s.handle with
  | some h => (s, h)
  | none => (⟨some fresh⟩, fresh)

/-- Embeds `PorkbunDomainClient.close`: release the handle when one is
held, otherwise do nothing.  The boolean records whether `aclose` was
actually awaited. -/
def close (s : ClientState) : ClientState × Bool :=
  match s.handle with
  | some _ => (⟨none⟩, true)
  | none => (s, false)

/-- The `PorkbunError` raised when the last allowed attempt of `_request`
fails, by failure kind (client.py lines 126-129 and 142-144): an HTTP
status failure carries the status code and response text, a transport
failure carries only the exception text (it has no HTTP status). -/
def finalFailure : Attempt → ClientError
  | .transportError msg => .porkbun ⟨s!"Request failed: {msg}", none, none⟩
  | .httpResponse code text _ => .porkbun ⟨s!"HTTP {code}: {text}", some code, none⟩

/-- Python `str(e)` for the exceptions crossing the tool boundary.  For
the typed `PorkbunError`, `str(e)` is exactly its `message` field (the
message is passed to `Exception.__init__`); for the raw httpx exception
classes we model the rendering httpx itself produces. -/
def errorText : ClientError → String
  | .porkbun e => e.message
  | .httpStatus code text => s!"HTTP status error {code}: {text}"
  | .transport msg => msg

/-- The `data` payload a tool places in its response, one constructor per
tool (domain_tools.py builds plain dicts; the shapes are fixed per tool). -/
inductive ToolData where
  | domainList (items : List Domain) (count : Nat)
  | domainInfo (d : Domain)
  | authCode (domain : String) (code : String)
  | renewal (r : RenewResult)
  | pricingList (items : List (String × PricingInfo)) (count : Nat)
deriving DecidableEq

/-- Embeds `domain_tools.ToolResponse`: the normalized envelope every
tool returns. -/
structure ToolResponse where
  success : Bool
  message : String
  data : Option ToolData := none
  error : Option String := none
  next_steps : Option (List String) := none
deriving DecidableEq

/-- Whether a client call came back without raising. -/
def resultOk {α : Type} : Except ClientError α → Bool
  | .ok _ => true
  | .error _ => false

/-- The `error` field a tool sets: absent on success, `str(e)` on failure. -/
def errOf {α : Type} : Except ClientError α → Option String
  | .ok _ => none
  | .error e => some (errorText e)

/-- Embeds the `list_domains` tool of domain_tools.py: wraps the client
outcome in a `ToolResponse`, catching every exception. -/
def tool_list_domains (r : Except ClientError (List Domain)) : ToolResponse :=
  match r with
  | .ok ds =>
    let n := ds.length
    { success := true
      message := s!"Found {n} domains in your account"
      data := some (.domainList ds n)
      next_steps := some
        [ "Use get_domain_info for details on a specific domain"
        , "Use get_pricing to check renewal costs"
        , "Use renew_domain to extend registration" ] }
  | .error e =>
    { success := false
      message := "Failed to list domains"
      error := some (errorText e)
      next_steps := some
        [ "Verify your API credentials are valid"
        , "Check network connectivity" ] }

/-- Embeds the `get_domain_info` tool of domain_tools.py. -/
def tool_get_domain_info (domain : String) (r : Except ClientError Domain) :
    ToolResponse :=
  match r with
  | .ok d =>
    { success := true
      message := s!"Retrieved information for {domain}"
      data := some (.domainInfo d)
      next_steps := some
        [ "Use get_auth_code to get transfer authorization"
        , "Use renew_domain to extend registration" ] }
  | .error e =>
    { success := false
      message := s!"Failed to get info for {domain}"
      error := some (errorText e)
      next_steps := some
        [ "Verify the domain name is correct"
        , "Ensure the domain is in your account"
        , "Use list_domains to see all your domains" ] }

/-- Embeds the `get_auth_code` tool of domain_tools.py. -/
def tool_get_auth_code (domain : String) (r : Except ClientError String) :
    ToolResponse :=
  match r with
  | .ok code =>
    { success := true
      message := s!"Retrieved auth code for {domain}"
      data := some (.authCode domain code)
      next_steps := some
        [ "Provide this code to the gaining registrar"
        , "Unlock the domain at Porkbun before transfer"
        , "Verify the admin email is correct for transfer approval" ] }
  | .error e =>
    { success := false
      message := s!"Failed to get auth code for {domain}"
      error := some (errorText e)
      next_steps := some
        [ "Verify the domain is in your account"
        , "Check if the domain is eligible for transfer" ] }

/-- Embeds the `renew_domain` tool of domain_tools.py. -/
def tool_renew_domain (domain : String) (years : Int)
    (r : Except ClientError RenewResult) : ToolResponse :=
  match r with
  | .ok res =>
    { success := true
      message := s!"Renewed {domain} for {years} year(s)"
      data := some (.renewal res)
      next_steps := some
        [ "Check the new expiration date"
        , "Verify auto-renew is configured if desired" ] }
  | .error e =>
    { success := false
      message := s!"Failed to renew {domain}"
      error := some (errorText e)
      next_steps := some
        [ "Verify the domain is in your account"
        , "Check if the domain is eligible for renewal"
        , "Ensure you have sufficient account balance" ] }

/-- Embeds the `get_pricing` tool of domain_tools.py. -/
def tool_get_pricing (r : Except ClientError (List (String × PricingInfo))) :
    ToolResponse :=
  match r with
  | .ok items =>
    let n := items.length
    { success := true
      message := s!"Retrieved pricing for {n} TLD(s)"
      data := some (.pricingList items n)
      next_steps := some
        [ "Compare prices across TLDs"
        , "Use this info to plan domain registrations" ] }
  | .error e =>
    { success := false
      message := "Failed to get pricing information"
      error := some (errorText e)
      next_steps := some
        [ "Try again later"
        , "Check network connectivity" ] }

/-! Concrete data used by the witness and counterexample theorems. -/

/-- A script whose every attempt fails: a transport failure first, then
HTTP 500 responses. -/
def retryScriptW : Nat → Attempt
  | 0 => .transportError "connection reset"
  | _ => .httpResponse 500 "server error" {}

/-- A 200 response whose envelope signals an application error. -/
def errBodyW : ApiBody :=
  { status? := some "ERROR", message? := some "Invalid API key" }

/-- Script delivering `errBodyW` on every attempt. -/
def errScriptW : Nat → Attempt := fun _ => .httpResponse 200 "resp" errBodyW

/-- A 200 response whose body has no `status` key at all. -/
def noStatusBodyW : ApiBody := { message? := some "weird reply" }

/-- Script delivering `noStatusBodyW` on every attempt. -/
def noStatusScriptW : Nat → Attempt := fun _ => .httpResponse 200 "resp" noStatusBodyW

/-- A domain record used in the listing witness. -/
def domA : Domain := { domain := "alpha.com", status := "ACTIVE", tld := "com" }

/-- A second domain record used in the listing witness. -/
def domB : Domain := { domain := "beta.com", status := "ACTIVE", tld := "com" }

/-- A successful listing body containing `domA` and `domB`. -/
def listBodyW : ApiBody := { status? := some "SUCCESS", domains := [domA, domB] }

/-- Script delivering `listBodyW` on every attempt. -/
def listScriptW : Nat → Attempt := fun _ => .httpResponse 200 "resp" listBodyW

/-- Pricing entry keyed by the empty TLD, for the empty-filter counterexample. -/
def pinfoA : PricingInfo := { tld := "", registration := some "1.00" }

/-- Pricing entry for `com`. -/
def pinfoB : PricingInfo := { tld := "com", registration := some "9.99" }

/-- A successful pricing body whose map contains the empty string as a key. -/
def pricingBodyW : ApiBody :=
  { status? := some "SUCCESS", pricing := [("", pinfoA), ("com", pinfoB)] }

/-- A successful renewal body carrying a remote message. -/
def renewBodyW : ApiBody :=
  { status? := some "SUCCESS", message? := some "Your domain has been renewed" }

/-- Script delivering `renewBodyW` on every attempt. -/
def renewScriptW : Nat → Attempt := fun _ => .httpResponse 200 "resp" renewBodyW

/-- A successful auth-code body. -/
def authBodyW : ApiBody :=
  { status? := some "SUCCESS", auth_code? := some "EPP12345" }

/-- Script delivering `authBodyW` on every attempt. -/
def authScriptW : Nat → Attempt := fun _ => .httpResponse 200 "resp" authBodyW

/-- A 200 response with an ERROR envelope and an empty remote message. -/
def emptyMsgBodyW : ApiBody := { status? := some "ERROR", message? := some "" }

/-- Script delivering `emptyMsgBodyW` on every attempt. -/
def emptyMsgScriptW : Nat → Attempt := fun _ => .httpResponse 200 "resp" emptyMsgBodyW

/-- A pricing-endpoint error body. -/
def pricingErrBodyW : ApiBody :=
  { status? := some "ERROR", message? := some "pricing unavailable" }

/-! Theorems. -/

/-- Unfolding lemma for the retry loop when every attempt from `attempt`
through `maxRetries` fails: the loop makes one call per remaining
iteration, sleeps `500 * 2^a` ms after each non-final attempt `a`, and
ends with the error determined by the final attempt. -/
theorem requestAux_all_fail (mr : Nat) (script : Nat → Attempt) :
    ∀ (fuel attempt : Nat), attempt + fuel = mr →
    (∀ a, attempt ≤ a → a ≤ mr → (script a).failed = true) →
    requestAux mr script attempt (fuel + 1) =
      ⟨.error (finalFailure (script mr)), fuel + 1,
        (List.range' attempt fuel).map fun a => 500 * 2 ^ a⟩ := by
  intro fuel
  induction fuel with
  | zero =>
    intro attempt hsum hfail
    have hA : attempt = mr := by omega
    subst hA
    have hf := hfail attempt le_rfl le_rfl
    rw [requestAux.eq_2]
    cases hscript : script attempt with
    | transportError msg =>
      simp [finalFailure]
    | httpResponse code text body =>
      rw [hscript] at hf
      have h2 : is2xx code = false := by
        simpa [Attempt.failed] using hf
      simp [finalFailure, h2]
  | succ n ih =>
    intro attempt hsum hfail
    have hlt : attempt < mr := by omega
    have hrest := ih (attempt + 1) (by omega) (fun a h1 h2 => hfail a (by omega) h2)
    have hf := hfail attempt le_rfl (by omega)
    rw [requestAux.eq_2]
    cases hscript : script attempt with
    | transportError msg =>
      simp [hlt, hrest, List.range']
    | httpResponse code text body =>
      rw [hscript] at hf
      have h2 : is2xx code = false := by
        simpa [Attempt.failed] using hf
      simp [h2, hlt, hrest, List.range']

/-- Claim C1: when every attempt suffers a transport-level or HTTP-level
failure, `_request` makes exactly `max_retries + 1` remote calls (so
`max_retries` additional retries), sleeping `0.5 * 2^attempt` seconds
(here in ms: `500 * 2^attempt`) between attempts with the counter
starting at 0, and finally raises a typed `PorkbunError` built from the
last failure: for an HTTP failure it carries that failure's status code
and response text, for a transport failure the exception text (a
transport failure has no HTTP status, so none is carried). -/
theorem request_retry_exhaustion (method endpoint : String) (mr : Nat)
    (script : Nat → Attempt)
    (hfail : ∀ a, a ≤ mr → (script a).failed = true) :
    (_request method endpoint mr script).calls = mr + 1 ∧
    (_request method endpoint mr script).delays =
      (List.range mr).map (fun a => 500 * 2 ^ a) ∧
    (_request method endpoint mr script).result = .error (finalFailure (script mr)) ∧
    (∀ code text body, script mr = .httpResponse code text body →
      finalFailure (script mr) =
        .porkbun ⟨s!"HTTP {code}: {text}", some code, none⟩) ∧
    (∀ msg, script mr = .transportError msg →
      finalFailure (script mr) = .porkbun ⟨s!"Request failed: {msg}", none, none⟩) := by
  have h := requestAux_all_fail mr script mr 0 (by omega) (fun a _ h2 => hfail a h2)
  refine ⟨?_, ?_, ?_, ?_, ?_⟩
  · simp [_request, h]
  · simp [_request, h, List.range_eq_range']
  · simp [_request, h]
  · intro code text body hs
    rw [hs]
    rfl
  · intro msg hs
    rw [hs]
    rfl

/-- Witness for C1 at `max_retries = 1` with a transport failure then an
HTTP 500: two calls, one 500 ms sleep, and the final typed error carries
the 500 status and its text. -/
theorem request_retry_exhaustion_witness :
    (_request "POST" "/domain/list/all" 1 retryScriptW).calls = 1 + 1 ∧
    (_request "POST" "/domain/list/all" 1 retryScriptW).delays =
      (List.range 1).map (fun a => 500 * 2 ^ a) ∧
    (_request "POST" "/domain/list/all" 1 retryScriptW).result =
      .error (finalFailure (retryScriptW 1)) ∧
    (∀ code text body, retryScriptW 1 = .httpResponse code text body →
      finalFailure (retryScriptW 1) =
        .porkbun ⟨s!"HTTP {code}: {text}", some code, none⟩) ∧
    (∀ msg, retryScriptW 1 = .transportError msg →
      finalFailure (retryScriptW 1) =
        .porkbun ⟨s!"Request failed: {msg}", none, none⟩) :=
  request_retry_exhaustion "POST" "/domain/list/all" 1 retryScriptW
    (by
      intro a ha
      interval_cases a <;> decide)

/-- Claim C2: a response that parses but whose envelope `status`
(case-insensitively) is not SUCCESS makes `_request` raise a typed
`PorkbunError` on the first attempt: exactly one remote call, no sleeps,
and the error carries the remote message (default "Unknown API error")
and the full body as `details`. -/
theorem request_nonsuccess_immediate (method endpoint : String) (mr : Nat)
    (script : Nat → Attempt) (code : Nat) (text : String) (body : ApiBody)
    (h0 : script 0 = .httpResponse code text body)
    (h2 : is2xx code = true)
    (hbad : envelopeSuccess body = false) :
    (_request method endpoint mr script).calls = 1 ∧
    (_request method endpoint mr script).delays = [] ∧
    (_request method endpoint mr script).result =
      .error (.porkbun ⟨body.message?.getD "Unknown API error", some code, some body⟩) := by
  refine ⟨?_, ?_, ?_⟩ <;> simp [_request, requestAux, h0, h2, hbad]

/-- Witness for C2: an ERROR envelope with `max_retries = 3` still makes
exactly one call and raises with the remote message and full body. -/
theorem request_nonsuccess_immediate_witness :
    (_request "POST" "/domain/list/all" 3 errScriptW).calls = 1 ∧
    (_request "POST" "/domain/list/all" 3 errScriptW).delays = [] ∧
    (_request "POST" "/domain/list/all" 3 errScriptW).result =
      .error (.porkbun
        ⟨errBodyW.message?.getD "Unknown API error", some 200, some errBodyW⟩) :=
  request_nonsuccess_immediate "POST" "/domain/list/all" 3 errScriptW 200 "resp"
    errBodyW rfl (by decide) (by decide)

/-- Claim C9: a response body with no `status` key is treated as
non-success on both paths — `data.get("status", "")` yields the empty
string, which is not SUCCESS — so `_request` and `get_pricing` each
raise a typed `PorkbunError` after a single call instead of succeeding
or failing with a lookup fault. -/
theorem missing_status_is_failure (method endpoint : String) (mr : Nat)
    (script : Nat → Attempt) (code : Nat) (text : String) (body : ApiBody)
    (tld? : Option String)
    (hs : body.status? = none)
    (h0 : script 0 = .httpResponse code text body)
    (h2 : is2xx code = true) :
    (_request method endpoint mr script).calls = 1 ∧
    (_request method endpoint mr script).result =
      .error (.porkbun ⟨body.message?.getD "Unknown API error", some code, some body⟩) ∧
    (get_pricing (.httpResponse code text body) tld?).calls = 1 ∧
    (get_pricing (.httpResponse code text body) tld?).result =
      .error (.porkbun ⟨body.message?.getD "Failed to get pricing", none, none⟩) := by
  have hbad : envelopeSuccess body = false := by
    simp [envelopeSuccess, hs]
    decide
  refine ⟨?_, ?_, ?_, ?_⟩ <;>
    simp [_request, requestAux, get_pricing, h0, h2, hbad]

/-- Witness for C9: a body whose only key is `message` is rejected by
both the generic request path and the pricing path. -/
theorem missing_status_is_failure_witness :
    (_request "POST" "/domain/list/all" 2 noStatusScriptW).calls = 1 ∧
    (_request "POST" "/domain/list/all" 2 noStatusScriptW).result =
      .error (.porkbun
        ⟨noStatusBodyW.message?.getD "Unknown API error", some 200, some noStatusBodyW⟩) ∧
    (get_pricing (.httpResponse 200 "resp" noStatusBodyW) (some "com")).calls = 1 ∧
    (get_pricing (.httpResponse 200 "resp" noStatusBodyW) (some "com")).result =
      .error (.porkbun
        ⟨noStatusBodyW.message?.getD "Failed to get pricing", none, none⟩) :=
  missing_status_is_failure "POST" "/domain/list/all" 2 noStatusScriptW 200 "resp"
    noStatusBodyW (some "com") rfl rfl (by decide)

/-- `List.find?` returns the element after a prefix of non-matches. -/
theorem find?_first_match {α : Type} (p : α → Bool) :
    ∀ (pre : List α) (d : α) (post : List α),
    (∀ x ∈ pre, p x = false) → p d = true →
    (pre ++ d :: post).find? p = some d := by
  intro pre
  induction pre with
  | nil =>
    intro d post _ hd
    simpa using List.find?_cons_of_pos post hd
  | cons x xs ih =>
    intro d post hpre hd
    have hx : p x = false := hpre x (by simp)
    rw [List.cons_append, List.find?_cons_of_neg _ (by simp [hx])]
    exact ih d post (fun y hy => hpre y (by simp [hy])) hd

/-- Claim C4: `get_domain_info` lists all domains and linearly scans for
an exact name match.  On a successful listing: when no record's `domain`
field equals the requested name it raises a typed `PorkbunError` with
status 404; when some record matches, the first matching record is
returned unchanged. -/
theorem get_domain_info_scan (mr : Nat) (script : Nat → Attempt) (name : String)
    (body : ApiBody)
    (hreq : (_request "POST" "/domain/list/all" mr script).result = .ok body) :
    ((∀ x ∈ body.domains, x.domain ≠ name) →
      (get_domain_info mr script name).result =
        .error (.porkbun ⟨s!"Domain {name} not found in account", some 404, none⟩)) ∧
    (∀ pre d post, body.domains = pre ++ d :: post →
      (∀ x ∈ pre, x.domain ≠ name) → d.domain = name →
      (get_domain_info mr script name).result = .ok d) := by
  have hlist : (list_domains mr script).result = .ok body.domains := by
    simp [list_domains, Trace.mapResult, hreq, Except.map]
  constructor
  · intro hnone
    have hfind : body.domains.find? (fun d => d.domain == name) = none := by
      rw [List.find?_eq_none]
      intro x hx
      simpa using hnone x hx
    simp [get_domain_info, hlist, hfind]
  · intro pre d post hsplit hpre hd
    have hfind : body.domains.find? (fun d => d.domain == name) = some d := by
      rw [hsplit]
      exact find?_first_match _ pre d post
        (fun x hx => by simpa using hpre x hx) (by simpa using hd)
    simp [get_domain_info, hlist, hfind]

/-- Witness for C4: on a listing containing `alpha.com` then `beta.com`,
looking up `beta.com` returns that exact record. -/
theorem get_domain_info_scan_witness :
    (get_domain_info 0 listScriptW "beta.com").result = .ok domB :=
  (get_domain_info_scan 0 listScriptW "beta.com" listBodyW (by decide)).2
    [domA] domB [] (by decide) (by decide) (by decide)

/-- Counterexample for claim C5 as frozen: the claim quantifies over
every supplied TLD filter, but the code filters under Python truthiness
(`if tld:`), so the supplied empty-string filter returns the full map
even though the empty string is a key of the map — not the singleton
for that key. -/
theorem get_pricing_empty_tld_cex :
    List.lookup "" pricingBodyW.pricing = some pinfoA ∧
    (get_pricing (.httpResponse 200 "resp" pricingBodyW) (some "")).result ≠
      .ok [("", pinfoA)] ∧
    (get_pricing (.httpResponse 200 "resp" pricingBodyW) (some "")).result =
      .ok [("", pinfoA), ("com", pinfoB)] := by
  refine ⟨by decide, by decide, by decide⟩

/-- Claim C5 (amended): on a successful pricing response, a supplied
non-empty TLD filter returns the singleton map for that key when
present and the empty map when absent; with no filter — or with the
empty-string filter, which Python truthiness treats as no filter — the
full pricing map is returned. -/
theorem get_pricing_filter (code : Nat) (text : String) (body : ApiBody)
    (h2 : is2xx code = true) (hok : envelopeSuccess body = true) :
    ((get_pricing (.httpResponse code text body) none).result = .ok body.pricing) ∧
    ((get_pricing (.httpResponse code text body) (some "")).result = .ok body.pricing) ∧
    (∀ t v, t ≠ "" → body.pricing.lookup t = some v →
      (get_pricing (.httpResponse code text body) (some t)).result = .ok [(t, v)]) ∧
    (∀ t, t ≠ "" → body.pricing.lookup t = none →
      (get_pricing (.httpResponse code text body) (some t)).result = .ok []) := by
  refine ⟨?_, ?_, ?_, ?_⟩
  · simp [get_pricing, h2, hok]
  · simp [get_pricing, h2, hok]
  · intro t v ht hv
    simp [get_pricing, h2, hok, ht, hv]
  · intro t ht hv
    simp [get_pricing, h2, hok, ht, hv]

/-- Witness for C5 (amended): filtering the witness pricing map by `com`
returns exactly the `com` entry. -/
theorem get_pricing_filter_witness :
    (get_pricing (.httpResponse 200 "resp" pricingBodyW) (some "com")).result =
      .ok [("com", pinfoB)] :=
  (get_pricing_filter 200 "resp" pricingBodyW (by decide) (by decide)).2.2.1
    "com" pinfoB (by decide) (by decide)

/-- Claim C6: on a successful remote call, `renew_domain` returns a
result whose `years` equals the requested years, whose `success` flag is
true, and whose `message` is the remote response's message when present,
otherwise the default "Domain renewed successfully". -/
theorem renew_domain_result (mr : Nat) (script : Nat → Attempt) (domain : String)
    (years : Int) (body : ApiBody)
    (hreq : (_request "POST" ("/domain/renew/" ++ domain) mr script).result = .ok body) :
    ∃ r : RenewResult,
      (renew_domain mr script domain years).result = .ok r ∧
      r.domain = domain ∧ r.years = years ∧ r.success = true ∧
      (∀ m, body.message? = some m → r.message = m) ∧
      (body.message? = none → r.message = "Domain renewed successfully") := by
  refine ⟨⟨domain, years, true, body.message?.getD "Domain renewed successfully"⟩,
    ?_, rfl, rfl, rfl, ?_, ?_⟩
  · simp [renew_domain, Trace.mapResult, hreq, Except.map]
  · intro m hm
    simp [hm]
  · intro hm
    simp [hm]

/-- Witness for C6: renewing for 3 years on a success body carrying a
remote message yields `years = 3`, `success = true` and that message. -/
theorem renew_domain_result_witness :
    ∃ r : RenewResult,
      (renew_domain 2 renewScriptW "example.com" 3).result = .ok r ∧
      r.domain = "example.com" ∧ r.years = 3 ∧ r.success = true ∧
      (∀ m, renewBodyW.message? = some m → r.message = m) ∧
      (renewBodyW.message? = none → r.message = "Domain renewed successfully") :=
  renew_domain_result 2 renewScriptW "example.com" 3 renewBodyW (by decide)

/-- Claim C7: `get_pricing` bypasses the `_request` retry helper: it
makes exactly one remote call whatever the outcome, sleeps never, raises
a typed `PorkbunError` immediately on a non-success envelope, and lets
HTTP-level and transport-level failures escape immediately as raw httpx
errors without any retry. -/
theorem get_pricing_single_call (a : Attempt) (tld? : Option String) :
    (get_pricing a tld?).calls = 1 ∧
    (get_pricing a tld?).delays = [] ∧
    (∀ code text body, a = .httpResponse code text body → is2xx code = true →
      envelopeSuccess body = false →
      (get_pricing a tld?).result =
        .error (.porkbun ⟨body.message?.getD "Failed to get pricing", none, none⟩)) ∧
    (∀ code text body, a = .httpResponse code text body → is2xx code = false →
      (get_pricing a tld?).result = .error (.httpStatus code text)) ∧
    (∀ msg, a = .transportError msg →
      (get_pricing a tld?).result = .error (.transport msg)) := by
  refine ⟨?_, ?_, ?_, ?_, ?_⟩
  · cases a with
    | transportError msg => simp [get_pricing]
    | httpResponse code text body =>
      cases h2 : is2xx code <;> cases hs : envelopeSuccess body <;>
        simp [get_pricing, h2, hs]
  · cases a with
    | transportError msg => simp [get_pricing]
    | httpResponse code text body =>
      cases h2 : is2xx code <;> cases hs : envelopeSuccess body <;>
        simp [get_pricing, h2, hs]
  · intro code text body ha h2 hs
    subst ha
    simp [get_pricing, h2, hs]
  · intro code text body ha h2
    subst ha
    simp [get_pricing, h2]
  · intro msg ha
    subst ha
    simp [get_pricing]

/-- Witness for C7: a non-success pricing envelope raises the typed
error after exactly one call and no sleeps. -/
theorem get_pricing_single_call_witness :
    (get_pricing (.httpResponse 200 "resp" pricingErrBodyW) (some "com")).calls = 1 ∧
    (get_pricing (.httpResponse 200 "resp" pricingErrBodyW) (some "com")).delays = [] ∧
    (get_pricing (.httpResponse 200 "resp" pricingErrBodyW) (some "com")).result =
      .error (.porkbun
        ⟨pricingErrBodyW.message?.getD "Failed to get pricing", none, none⟩) := by
  have h := get_pricing_single_call (.httpResponse 200 "resp" pricingErrBodyW) (some "com")
  exact ⟨h.1, h.2.1, h.2.2.1 200 "resp" pricingErrBodyW rfl (by decide) (by decide)⟩

/-- Claim C8: `get_auth_code` POSTs to the per-domain auth-code endpoint
and on success returns the auth-code string from the response, or the
empty string when the field is absent. -/
theorem get_auth_code_spec (mr : Nat) (script : Nat → Attempt) (domain : String)
    (body : ApiBody)
    (hreq : (_request "POST" ("/domain/getAuthCode/" ++ domain) mr script).result
      = .ok body) :
    (get_auth_code mr script domain).method = "POST" ∧
    (get_auth_code mr script domain).endpoint = "/domain/getAuthCode/" ++ domain ∧
    (∀ c, body.auth_code? = some c →
      (get_auth_code mr script domain).result = .ok c) ∧
    (body.auth_code? = none → (get_auth_code mr script domain).result = .ok "") := by
  refine ⟨rfl, rfl, ?_, ?_⟩
  · intro c hc
    simp [get_auth_code, Trace.mapResult, hreq, hc, Except.map]
  · intro hc
    simp [get_auth_code, Trace.mapResult, hreq, hc, Except.map]

/-- Witness for C8: a success body carrying code `EPP12345` yields that
code, over the per-domain endpoint. -/
theorem get_auth_code_spec_witness :
    (get_auth_code 1 authScriptW "example.com").method = "POST" ∧
    (get_auth_code 1 authScriptW "example.com").endpoint =
      "/domain/getAuthCode/" ++ "example.com" ∧
    (get_auth_code 1 authScriptW "example.com").result = .ok "EPP12345" := by
  have h := get_auth_code_spec 1 authScriptW "example.com" authBodyW (by decide)
  exact ⟨h.1, h.2.1, h.2.2.1 "EPP12345" rfl⟩

/-- Counterexample for claim C3 as frozen: the tool layer does return a
structured response on every failure, but the `error` string equals
Python's `str(e)`, and a remote ERROR envelope with an empty `message`
produces a `PorkbunError` whose string form is empty — so the `error`
field is the empty string, not a non-empty one. -/
theorem tool_error_empty_cex :
    (tool_list_domains (list_domains 3 emptyMsgScriptW).result).success = false ∧
    (tool_list_domains (list_domains 3 emptyMsgScriptW).result).error = some "" := by
  refine ⟨by decide, by decide⟩

/-- Claim C3 (amended): every tool-layer call, for every client outcome
including raised exceptions, returns a `ToolResponse` with the `success`
boolean set (true exactly on success) and, on failure, the `error`
field set to the exception's string form — which is non-empty except
when that string form (the remote-supplied message) is itself empty; no
exception propagates to the caller. -/
theorem tool_layer_total (domain : String) (years : Int)
    (r1 : Except ClientError (List Domain)) (r2 : Except ClientError Domain)
    (r3 : Except ClientError String) (r4 : Except ClientError RenewResult)
    (r5 : Except ClientError (List (String × PricingInfo))) :
    ((tool_list_domains r1).success = resultOk r1 ∧
      (tool_list_domains r1).error = errOf r1) ∧
    ((tool_get_domain_info domain r2).success = resultOk r2 ∧
      (tool_get_domain_info domain r2).error = errOf r2) ∧
    ((tool_get_auth_code domain r3).success = resultOk r3 ∧
      (tool_get_auth_code domain r3).error = errOf r3) ∧
    ((tool_renew_domain domain years r4).success = resultOk r4 ∧
      (tool_renew_domain domain years r4).error = errOf r4) ∧
    ((tool_get_pricing r5).success = resultOk r5 ∧
      (tool_get_pricing r5).error = errOf r5) := by
  refine ⟨⟨?_, ?_⟩, ⟨?_, ?_⟩, ⟨?_, ?_⟩, ⟨?_, ?_⟩, ⟨?_, ?_⟩⟩ <;>
    first
    | (cases r1 <;> rfl)
    | (cases r2 <;> rfl)
    | (cases r3 <;> rfl)
    | (cases r4 <;> rfl)
    | (cases r5 <;> rfl)

/-- Claim C10: `close` is idempotent — closing an already-closed or
never-opened client leaves the state unchanged and releases nothing —
and after `close` the handle is `none`, so `_ensure_client` lazily
creates a fresh handle instead of failing on a released one. -/
theorem close_idempotent (s : ClientState) (fresh : Nat) :
    (close s).1.handle = none ∧
    close (close s).1 = ((close s).1, false) ∧
    close ⟨none⟩ = (⟨none⟩, false) ∧
    _ensure_client (close s).1 fresh = (⟨some fresh⟩, fresh) := by
  cases s with
  | mk h => cases h <;> simp [close, _ensure_client]

end PorkbunMCP
